import Mathlib

/-!
Verification of the outbound acknowledgment subsystem of talaria
(the acknowledgment dispatcher), embedded shallowly in Lean 4.

The repository's visible source holds the dispatcher's test suite
(`TestAckDispatcherOnDeviceEvent` and its subtests) and the primary HTTP
handler; the dispatcher implementation itself (`ackDispatcher.go`, with
`NewAckDispatcher` and `OnDeviceEvent`) is not among the visible source
files.  The dispatcher is therefore modelled from the specification's
pipeline (nil-event guard, connection-handle guard, message-shape guard,
partner-identifier integrity check, label computation, eligibility
decision, send-and-measure), and the model is cross-checked against the
expectations of the test suite.
-/

namespace Talaria

/-- The four named QOS levels, totally ordered Low < Medium < High < Critical. -/
inductive QOSLevel
  | low
  | medium
  | high
  | critical
deriving DecidableEq

/-- Ordinal rank of a QOS level, used for threshold comparisons. -/
def QOSLevel.toNat : QOSLevel → Nat
  | .low => 0
  | .medium => 1
  | .high => 2
  | .critical => 3

/-- Human-readable name of a QOS level, used as a metric label value. -/
def QOSLevel.toLabel : QOSLevel → String
  | .low => "Low"
  | .medium => "Medium"
  | .high => "High"
  | .critical => "Critical"

/-- wrp QOS ordinal value for Low used by the tests. -/
def QOSLowValue : Nat := 0

/-- wrp QOS ordinal value for Medium used by the tests. -/
def QOSMediumValue : Nat := 25

/-- wrp QOS ordinal value for High used by the tests. -/
def QOSHighValue : Nat := 50

/-- wrp QOS ordinal value for Critical used by the tests. -/
def QOSCriticalValue : Nat := 75

/-- The QOS classifier: maps a message's ordinal QOS value to a named
level.  Pure and total; unrecognized or zero-value ordinals fall into the
default level Low. -/
def qosLevel (v : Nat) : QOSLevel :=
  if v ≤ 24 then .low
  else if v ≤ 49 then .medium
  else if v ≤ 74 then .high
  else .critical

/-- Protocol message kinds.  Only `simpleEvent` is ack-eligible; `invalid0`
is the explicit invalid sentinel kind; `other` covers every remaining wire
message kind, none of which is special-cased by the dispatcher. -/
inductive MessageType
  | invalid0
  | simpleEvent
  | other (code : Nat)
deriving DecidableEq

/-- Human-readable name of a message kind, used as a metric label value. -/
def MessageType.friendlyName : MessageType → String
  | .invalid0 => "Invalid0"
  | .simpleEvent => "SimpleEvent"
  | .other code => "Other" ++ toString code

/-- The concrete Protocol Message shape.  `type`, `partnerIDs` and
`qualityOfService` participate in the dispatcher's decisions; the remaining
fields (addressing, headers, payload, URL, session) are opaque to the
dispatcher and never validated by it.  `url` and `payload` are byte
sequences (Go strings need not be valid UTF-8). -/
structure Message where
  type : MessageType
  source : String
  destination : String
  transactionUUID : String
  headers : List String
  payload : List Nat
  url : List Nat
  partnerIDs : List String
  sessionID : String
  qualityOfService : Nat
deriving DecidableEq

/-- The event's message slot: absent (nil), present but not of the concrete
Protocol Message shape, or a recognized concrete message. -/
inductive EventMessage
  | nilMessage
  | notWrp
  | wrp (m : Message)
deriving DecidableEq

/-- The event's connection slot: absent (nil), present but not a
recognizable connection-handle value, or a live handle whose `Send`
behavior is `sendFails` (true means `Send` returns an error). -/
inductive EventDevice
  | nilDevice
  | notDevice
  | device (sendFails : Bool)
deriving DecidableEq

/-- Enumerated event categories; the dispatcher special-cases only
`messageReceived`. -/
inductive EventType
  | messageReceived
  | transactionComplete
  | other (code : Nat)
deriving DecidableEq

/-- A device event: one occurrence observed by the gateway for a specific
connection. -/
structure Event where
  device : EventDevice
  message : EventMessage
  type : EventType
deriving DecidableEq

/-- The metric label triple computed at step 5 of the pipeline. -/
structure Labels where
  qosLevel : String
  partnerID : String
  messageType : String
deriving DecidableEq

/-- Observable side effects of handling one event: number of error log
lines, number of `Send` attempts, and, for each of the four metric
instruments, the list of label scopes it was invoked with (one list entry
per `With`/`Add` or `With`/`Observe` invocation pair). -/
structure Effects where
  errorLogs : Nat
  sends : Nat
  ackSuccessAdds : List Labels
  ackSuccessObserves : List Labels
  ackFailureAdds : List Labels
  ackFailureObserves : List Labels
deriving DecidableEq

/-- No side effect at all: the silent-return outcome. -/
def Effects.silent : Effects := ⟨0, 0, [], [], [], []⟩

/-- Exactly one error log line, nothing else: the log-and-drop outcome. -/
def Effects.logOnly : Effects := ⟨1, 0, [], [], [], []⟩

/-- One send that succeeded: success counter and success-latency histogram
each invoked once under labels `l`, zero log lines. -/
def Effects.sendSuccess (l : Labels) : Effects := ⟨0, 1, [l], [l], [], []⟩

/-- One send that failed: failure counter and failure-latency histogram
each invoked once under labels `l`, one error log line. -/
def Effects.sendFailure (l : Labels) : Effects := ⟨1, 1, [], [], [l], [l]⟩

/-- Total number of metric-instrument invocations recorded in `e`. -/
def Effects.metricCalls (e : Effects) : Nat :=
  e.ackSuccessAdds.length + e.ackSuccessObserves.length +
    e.ackFailureAdds.length + e.ackFailureObserves.length

/-- Modelled from the spec: the ack-eligibility decision (step 6 of the
pipeline; `ackDispatcher.go` is not among the visible sources).  An event
is ack-eligible iff the event kind is message-received, the message type is
simple-event, and the message's QOS level is at least Medium. -/
def ackEligible (t : EventType) (m : Message) : Bool :=
  decide (t = EventType.messageReceived) &&
    decide (m.type = MessageType.simpleEvent) &&
    decide (QOSLevel.medium.toNat ≤ (qosLevel m.qualityOfService).toNat)

/-- Modelled from the spec: steps 4–7 of the pipeline applied to a concrete
Protocol Message reached with a valid connection handle
(`ackDispatcher.go` is not among the visible sources).  Requires exactly
one partner identifier (else log-and-drop); computes the label triple;
silently ignores ineligible events; for eligible events performs exactly
one send and records the success or failure metric pair.  The `.error`
result models a Go panic escaping the handler; the one potentially
panicking operation, indexing `partnerIDs[0]`, is modelled by `head?`. -/
def dispatchMessage (t : EventType) (sendFails : Bool) (m : Message) :
    Except String Effects :=
  if m.partnerIDs.length ≠ 1 then .ok .logOnly
  else
    match m.partnerIDs.head? with
    | Option.none => .error "panic: index out of range"
    | Option.some p =>
      let l : Labels :=
        ⟨(qosLevel m.qualityOfService).toLabel, p, m.type.friendlyName⟩
      if ackEligible t m then
        if sendFails then .ok (.sendFailure l) else .ok (.sendSuccess l)
      else .ok .silent

/-- Modelled from the spec: the dispatcher's single entry point
`OnDeviceEvent` / `HandleEvent` (`ackDispatcher.go` is not among the
visible sources).  Ordered pipeline: nil-event guard (log-and-drop),
connection-handle guard (log-and-drop, before any message inspection),
message-shape guard (silent return), then `dispatchMessage`.  An `.ok`
result is a normal return with the recorded side effects; an `.error`
result would model a panic escaping to the caller. -/
def onDeviceEvent (ev : Option Event) : Except String Effects :=
  match ev with
  | Option.none => .ok .logOnly
  | Option.some e =>
    match e.device with
    | .nilDevice => .ok .logOnly
    | .notDevice => .ok .logOnly
    | .device sendFails =>
      match e.message with
      | .nilMessage => .ok .silent
      | .notWrp => .ok .silent
      | .wrp m => dispatchMessage e.type sendFails m

/-- The four metric instruments injected at construction, identified
abstractly. -/
structure OutboundMeasures where
  ackSuccess : Nat
  ackFailure : Nat
  ackSuccessLatency : Nat
  ackFailureLatency : Nat
deriving DecidableEq

/-- Outbounder configuration; the tests use a default-configured value
whose logger is the default JSON logger. -/
structure Outbounder where
  loggerConfigured : Bool := false
deriving DecidableEq

/-- The constructed acknowledgment dispatcher: stateless beyond its
injected collaborators. -/
structure AckDispatcher where
  measures : OutboundMeasures
  outbounder : Outbounder
deriving DecidableEq

/-- Result of dispatcher construction: the dispatcher (or none), the error
(or none), and the number of initialization log lines emitted before any
event is handled. -/
structure ConstructionResult where
  dispatcher : Option AckDispatcher
  err : Option String
  initLogLines : Nat
deriving DecidableEq

/-- Modelled from the spec: `NewAckDispatcher` (`ackDispatcher.go` is not
among the visible sources).  Construction injects the measures and
outbounder configuration and always succeeds; per the test suite's
"Purge init logs" step, construction emits initialization log output
before any event is handled. -/
def NewAckDispatcher (om : OutboundMeasures) (o : Outbounder) :
    ConstructionResult :=
  ⟨Option.some ⟨om, o⟩, Option.none, 1⟩

/-- A fully populated well-formed message matching the "Ack QOS level
Medium" test case. -/
def sampleMsg : Message where
  type := .simpleEvent
  source := "dns:external.com"
  destination := "MAC:11:22:33:44:55:66"
  transactionUUID := "DEADBEEF"
  headers := ["Header1", "Header2"]
  payload := [1, 2, 3, 4, 0xff, 0xce]
  url := [0x73, 0x6f, 0x6d, 0x65, 0x55, 0x52, 0x4c, 0x2e, 0x63, 0x6f, 0x6d]
  partnerIDs := ["foo"]
  sessionID := "sessionID123"
  qualityOfService := QOSMediumValue

example :
    onDeviceEvent (Option.some ⟨.device false, .wrp sampleMsg, .messageReceived⟩) =
      .ok (.sendSuccess ⟨"Medium", "foo", "SimpleEvent"⟩) := rfl

example :
    onDeviceEvent (Option.some ⟨.device true, .wrp sampleMsg, .messageReceived⟩) =
      .ok (.sendFailure ⟨"Medium", "foo", "SimpleEvent"⟩) := rfl

example :
    onDeviceEvent (Option.some ⟨.device false, .wrp
      { sampleMsg with qualityOfService := QOSLowValue }, .messageReceived⟩) =
      .ok .silent := rfl

example :
    onDeviceEvent (Option.some ⟨.device false, .wrp sampleMsg, .transactionComplete⟩) =
      .ok .silent := rfl

example :
    onDeviceEvent (Option.some ⟨.device false, .wrp
      { sampleMsg with partnerIDs := ["foo", "bar"] }, .messageReceived⟩) =
      .ok .logOnly := rfl

example :
    onDeviceEvent (Option.some ⟨.nilDevice, .wrp sampleMsg, .messageReceived⟩) =
      .ok .logOnly := rfl

example : onDeviceEvent Option.none = .ok .logOnly := rfl

/-- The ack-eligibility conjunction exactly as the specification words it:
event kind is message-received, message type is simple-event, and the QOS
level is Medium, High, or Critical. -/
def EligibleSpec (t : EventType) (m : Message) : Prop :=
  t = EventType.messageReceived ∧ m.type = MessageType.simpleEvent ∧
    (qosLevel m.qualityOfService = QOSLevel.medium ∨
     qosLevel m.qualityOfService = QOSLevel.high ∨
     qosLevel m.qualityOfService = QOSLevel.critical)

/-- A message whose opaque sub-fields are malformed (empty source,
syntactically invalid MAC destination, non-UTF8 URL bytes), matching the
"Ack QOS level Critical success with invalid message specs" test case. -/
def malformedMsg : Message where
  type := .simpleEvent
  source := ""
  destination := "MAC:+++BB-44-55"
  transactionUUID := "DEADBEEF"
  headers := ["Header1", "Header2"]
  payload := [1, 2, 3, 4, 0xff, 0xce]
  url := [0x73, 0x6f, 0x6d, 0x65, 0x55, 0x52, 0x4c, 0xed, 0xbf, 0xbf, 0x2e,
    0x63, 0x6f, 0x6d]
  partnerIDs := ["foo"]
  sessionID := "sessionID123"
  qualityOfService := QOSCriticalValue

lemma ackEligible_iff (t : EventType) (m : Message) :
    ackEligible t m = true ↔ EligibleSpec t m := by
  unfold ackEligible EligibleSpec
  simp only [Bool.and_eq_true, decide_eq_true_eq]
  constructor
  · rintro ⟨⟨h1, h2⟩, h3⟩
    refine ⟨h1, h2, ?_⟩
    cases h : qosLevel m.qualityOfService <;>
      simp_all [QOSLevel.toNat]
  · rintro ⟨h1, h2, h3⟩
    refine ⟨⟨h1, h2⟩, ?_⟩
    rcases h3 with h | h | h <;> simp [h, QOSLevel.toNat]

lemma onDeviceEvent_wrp (sf : Bool) (m : Message) (t : EventType) :
    onDeviceEvent (Option.some ⟨EventDevice.device sf, EventMessage.wrp m, t⟩) =
      dispatchMessage t sf m := rfl

lemma dispatchMessage_singleton (t : EventType) (sf : Bool) (m : Message)
    (p : String) (hp : m.partnerIDs = [p]) :
    dispatchMessage t sf m =
      if ackEligible t m then
        (if sf then
          Except.ok (Effects.sendFailure
            ⟨(qosLevel m.qualityOfService).toLabel, p, m.type.friendlyName⟩)
        else
          Except.ok (Effects.sendSuccess
            ⟨(qosLevel m.qualityOfService).toLabel, p, m.type.friendlyName⟩))
      else Except.ok Effects.silent := by
  unfold dispatchMessage
  rw [hp]
  simp

lemma dispatchMessage_congr (t : EventType) (sf : Bool) (m m2 : Message)
    (ht : m2.type = m.type) (hpi : m2.partnerIDs = m.partnerIDs)
    (hq : m2.qualityOfService = m.qualityOfService) :
    dispatchMessage t sf m2 = dispatchMessage t sf m := by
  unfold dispatchMessage ackEligible
  rw [ht, hpi, hq]

/-- C1: for every event that passes the nil-event, connection-handle,
message-shape, and partner-identifier checks, the dispatcher attempts an
acknowledgment send if and only if the event kind is message-received, the
message type is simple-event, and the message's QOS level is Medium, High,
or Critical; every such event outside this conjunction produces zero log
lines, zero metric calls, and no send. -/
theorem ack_iff_eligible (sf : Bool) (t : EventType) (m : Message)
    (hp : m.partnerIDs.length = 1) :
    ∃ eff, onDeviceEvent (Option.some ⟨EventDevice.device sf,
        EventMessage.wrp m, t⟩) = Except.ok eff ∧
      (eff.sends = 1 ↔ EligibleSpec t m) ∧
      (¬ EligibleSpec t m →
        eff.errorLogs = 0 ∧ eff.metricCalls = 0 ∧ eff.sends = 0) := by
  obtain ⟨p, hlist⟩ := List.length_eq_one.mp hp
  rw [onDeviceEvent_wrp, dispatchMessage_singleton t sf m p hlist]
  by_cases hel : ackEligible t m = true
  · have hspec : EligibleSpec t m := (ackEligible_iff t m).mp hel
    rw [if_pos hel]
    cases sf
    · exact ⟨_, rfl, by simp [Effects.sendSuccess, hspec],
        fun h => absurd hspec h⟩
    · exact ⟨_, rfl, by simp [Effects.sendFailure, hspec],
        fun h => absurd hspec h⟩
  · have hspec : ¬ EligibleSpec t m := fun h => hel ((ackEligible_iff t m).mpr h)
    rw [if_neg hel]
    exact ⟨_, rfl, by simp [Effects.silent, hspec],
      fun _ => by simp [Effects.silent, Effects.metricCalls]⟩

/-- Witness for C1 at the "Ack QOS level Medium" test event. -/
theorem ack_iff_eligible_witness :
    sampleMsg.partnerIDs.length = 1 ∧
    ∃ eff, onDeviceEvent (Option.some ⟨EventDevice.device false,
        EventMessage.wrp sampleMsg, EventType.messageReceived⟩) = Except.ok eff ∧
      (eff.sends = 1 ↔ EligibleSpec EventType.messageReceived sampleMsg) ∧
      (¬ EligibleSpec EventType.messageReceived sampleMsg →
        eff.errorLogs = 0 ∧ eff.metricCalls = 0 ∧ eff.sends = 0) :=
  ⟨by decide, ack_iff_eligible false EventType.messageReceived sampleMsg (by decide)⟩

/-- C2: for every input event — nil, empty, malformed, or well-formed, with
a working or failing connection handle — the dispatcher's single entry
point returns normally (an `Except.ok` outcome): no panic or failure ever
propagates to the caller. -/
theorem handle_event_total (ev : Option Event) :
    ∃ eff, onDeviceEvent ev = Except.ok eff := by
  match ev with
  | Option.none => exact ⟨_, rfl⟩
  | Option.some ⟨EventDevice.nilDevice, msg, t⟩ => exact ⟨_, rfl⟩
  | Option.some ⟨EventDevice.notDevice, msg, t⟩ => exact ⟨_, rfl⟩
  | Option.some ⟨EventDevice.device sf, EventMessage.nilMessage, t⟩ => exact ⟨_, rfl⟩
  | Option.some ⟨EventDevice.device sf, EventMessage.notWrp, t⟩ => exact ⟨_, rfl⟩
  | Option.some ⟨EventDevice.device sf, EventMessage.wrp m, t⟩ =>
    rw [onDeviceEvent_wrp]
    unfold dispatchMessage
    by_cases hp : m.partnerIDs.length = 1
    · obtain ⟨p, hlist⟩ := List.length_eq_one.mp hp
      rw [hlist]
      simp only [List.length_cons, List.length_nil, List.head?]
      by_cases hel : ackEligible t m = true <;> cases sf <;>
        simp [hel]
    · rw [if_pos hp]
      exact ⟨_, rfl⟩

/-- C3: for every ack-eligible event, exactly one send is attempted; on
send success the success counter and success-latency histogram are each
invoked exactly once under labels {qosLevel, partnerId, messageTypeName}
with zero log lines; on send failure the failure counter and
failure-latency histogram are each invoked exactly once under the same
labels with exactly one error logged, and the send is neither retried nor
its error re-raised. -/
theorem send_and_measure (sf : Bool) (t : EventType) (m : Message)
    (p : String) (hp : m.partnerIDs = [p]) (hel : ackEligible t m = true) :
    ∃ eff, onDeviceEvent (Option.some ⟨EventDevice.device sf,
        EventMessage.wrp m, t⟩) = Except.ok eff ∧
      eff.sends = 1 ∧
      (sf = false →
        eff.errorLogs = 0 ∧
        eff.ackSuccessAdds =
          [⟨(qosLevel m.qualityOfService).toLabel, p, m.type.friendlyName⟩] ∧
        eff.ackSuccessObserves =
          [⟨(qosLevel m.qualityOfService).toLabel, p, m.type.friendlyName⟩] ∧
        eff.ackFailureAdds = [] ∧ eff.ackFailureObserves = []) ∧
      (sf = true →
        eff.errorLogs = 1 ∧
        eff.ackFailureAdds =
          [⟨(qosLevel m.qualityOfService).toLabel, p, m.type.friendlyName⟩] ∧
        eff.ackFailureObserves =
          [⟨(qosLevel m.qualityOfService).toLabel, p, m.type.friendlyName⟩] ∧
        eff.ackSuccessAdds = [] ∧ eff.ackSuccessObserves = []) := by
  rw [onDeviceEvent_wrp, dispatchMessage_singleton t sf m p hp, if_pos hel]
  cases sf
  · exact ⟨_, rfl, rfl, fun _ => ⟨rfl, rfl, rfl, rfl, rfl⟩, by simp⟩
  · exact ⟨_, rfl, rfl, by simp, fun _ => ⟨rfl, rfl, rfl, rfl, rfl⟩⟩

/-- Witness for C3 at the "Device error" test event (failing send). -/
theorem send_and_measure_witness :
    sampleMsg.partnerIDs = ["foo"] ∧
    ackEligible EventType.messageReceived sampleMsg = true ∧
    ∃ eff, onDeviceEvent (Option.some ⟨EventDevice.device true,
        EventMessage.wrp sampleMsg, EventType.messageReceived⟩) = Except.ok eff ∧
      eff.sends = 1 ∧
      (true = false →
        eff.errorLogs = 0 ∧
        eff.ackSuccessAdds =
          [⟨(qosLevel sampleMsg.qualityOfService).toLabel, "foo",
            sampleMsg.type.friendlyName⟩] ∧
        eff.ackSuccessObserves =
          [⟨(qosLevel sampleMsg.qualityOfService).toLabel, "foo",
            sampleMsg.type.friendlyName⟩] ∧
        eff.ackFailureAdds = [] ∧ eff.ackFailureObserves = []) ∧
      (true = true →
        eff.errorLogs = 1 ∧
        eff.ackFailureAdds =
          [⟨(qosLevel sampleMsg.qualityOfService).toLabel, "foo",
            sampleMsg.type.friendlyName⟩] ∧
        eff.ackFailureObserves =
          [⟨(qosLevel sampleMsg.qualityOfService).toLabel, "foo",
            sampleMsg.type.friendlyName⟩] ∧
        eff.ackSuccessAdds = [] ∧ eff.ackSuccessObserves = []) :=
  ⟨rfl, by decide,
    send_and_measure true EventType.messageReceived sampleMsg "foo" rfl (by decide)⟩

/-- C4: for every event carrying a structurally valid concrete Protocol
Message whose partner-identifier count is not exactly 1, the dispatcher
logs exactly one error, attempts no send, and touches no metric
instrument — unconditionally, regardless of event kind, message type, QOS
level, or the state of the connection slot. -/
theorem partner_check (d : EventDevice) (t : EventType) (m : Message)
    (hp : m.partnerIDs.length ≠ 1) :
    onDeviceEvent (Option.some ⟨d, EventMessage.wrp m, t⟩) =
      Except.ok Effects.logOnly ∧
    Effects.logOnly.errorLogs = 1 ∧ Effects.logOnly.sends = 0 ∧
    Effects.logOnly.metricCalls = 0 := by
  refine ⟨?_, rfl, rfl, rfl⟩
  cases d with
  | nilDevice => rfl
  | notDevice => rfl
  | device sf =>
    rw [onDeviceEvent_wrp]
    unfold dispatchMessage
    rw [if_pos hp]

/-- Witness for C4 at the "Invaild partnerIDs error, more than 1" test
event. -/
theorem partner_check_witness :
    ({ sampleMsg with partnerIDs := ["foo", "bar"] } : Message).partnerIDs.length ≠ 1 ∧
    (onDeviceEvent (Option.some ⟨EventDevice.device false,
        EventMessage.wrp { sampleMsg with partnerIDs := ["foo", "bar"] },
        EventType.messageReceived⟩) = Except.ok Effects.logOnly ∧
      Effects.logOnly.errorLogs = 1 ∧ Effects.logOnly.sends = 0 ∧
      Effects.logOnly.metricCalls = 0) :=
  ⟨by decide, partner_check (EventDevice.device false) EventType.messageReceived
    { sampleMsg with partnerIDs := ["foo", "bar"] } (by decide)⟩

/-- C5 counterexample: for an ack-eligible event whose send fails, two of
the three side-effect classes fire for the same event — the error log
(`errorLogs` is positive) and the failure metric pair (`ackFailureAdds`
and `ackFailureObserves` are each nonempty) — refuting "at most one of
{error log, success-metric-pair, failure-metric-pair} fires". -/
theorem single_side_effect_counterexample :
    onDeviceEvent (Option.some ⟨EventDevice.device true,
        EventMessage.wrp sampleMsg, EventType.messageReceived⟩) =
      Except.ok (Effects.sendFailure ⟨"Medium", "foo", "SimpleEvent"⟩) ∧
    0 < (Effects.sendFailure ⟨"Medium", "foo", "SimpleEvent"⟩).errorLogs ∧
    0 < (Effects.sendFailure ⟨"Medium", "foo", "SimpleEvent"⟩).ackFailureAdds.length ∧
    0 < (Effects.sendFailure ⟨"Medium", "foo", "SimpleEvent"⟩).ackFailureObserves.length :=
  ⟨rfl, Nat.one_pos, Nat.one_pos, Nat.one_pos⟩

/-- C5 (amended): every event's total side effects take one of exactly
four shapes — silent (none of the three classes), log-only, the
success-metric-pair with zero log lines, or the failure-metric-pair
together with exactly one error log; in particular at most one metric
pair fires per event and the silent-return paths fire none of the three
classes. -/
theorem side_effect_shapes (ev : Option Event) :
    ∃ eff, onDeviceEvent ev = Except.ok eff ∧
      (eff = Effects.silent ∨ eff = Effects.logOnly ∨
        (∃ l, eff = Effects.sendSuccess l) ∨
        (∃ l, eff = Effects.sendFailure l)) := by
  match ev with
  | Option.none => exact ⟨_, rfl, Or.inr (Or.inl rfl)⟩
  | Option.some ⟨EventDevice.nilDevice, msg, t⟩ =>
    exact ⟨_, rfl, Or.inr (Or.inl rfl)⟩
  | Option.some ⟨EventDevice.notDevice, msg, t⟩ =>
    exact ⟨_, rfl, Or.inr (Or.inl rfl)⟩
  | Option.some ⟨EventDevice.device sf, EventMessage.nilMessage, t⟩ =>
    exact ⟨_, rfl, Or.inl rfl⟩
  | Option.some ⟨EventDevice.device sf, EventMessage.notWrp, t⟩ =>
    exact ⟨_, rfl, Or.inl rfl⟩
  | Option.some ⟨EventDevice.device sf, EventMessage.wrp m, t⟩ =>
    rw [onDeviceEvent_wrp]
    by_cases hp : m.partnerIDs.length = 1
    · obtain ⟨p, hlist⟩ := List.length_eq_one.mp hp
      rw [dispatchMessage_singleton t sf m p hlist]
      by_cases hel : ackEligible t m = true
      · rw [if_pos hel]
        cases sf
        · exact ⟨_, rfl, Or.inr (Or.inr (Or.inl ⟨_, rfl⟩))⟩
        · exact ⟨_, rfl, Or.inr (Or.inr (Or.inr ⟨_, rfl⟩))⟩
      · rw [if_neg hel]
        exact ⟨_, rfl, Or.inl rfl⟩
    · unfold dispatchMessage
      rw [if_pos hp]
      exact ⟨_, rfl, Or.inr (Or.inl rfl)⟩

/-- C6: for every non-nil event whose connection slot is absent or not a
recognizable connection handle, the dispatcher logs exactly one error,
touches no metric instrument, and attempts no send — whatever the message
slot holds, even a well-formed ack-eligible message, since this guard
runs before any message inspection. -/
theorem connection_guard (msg : EventMessage) (t : EventType) :
    onDeviceEvent (Option.some ⟨EventDevice.nilDevice, msg, t⟩) =
      Except.ok Effects.logOnly ∧
    onDeviceEvent (Option.some ⟨EventDevice.notDevice, msg, t⟩) =
      Except.ok Effects.logOnly ∧
    Effects.logOnly.errorLogs = 1 ∧ Effects.logOnly.sends = 0 ∧
    Effects.logOnly.metricCalls = 0 :=
  ⟨rfl, rfl, rfl, rfl, rfl⟩

/-- C7: on a nil event reference the dispatcher logs exactly one error,
touches no metric instrument, and attempts no send. -/
theorem nil_event_guard :
    onDeviceEvent Option.none = Except.ok Effects.logOnly ∧
    Effects.logOnly.errorLogs = 1 ∧ Effects.logOnly.sends = 0 ∧
    Effects.logOnly.metricCalls = 0 :=
  ⟨rfl, rfl, rfl, rfl⟩

/-- C8: for every event with a valid connection handle whose message slot
is not of the concrete Protocol Message shape (nil or an unrecognized
representation), the dispatcher returns silently: no log line, no metric
call, no send. -/
theorem message_shape_silent (sf : Bool) (t : EventType) :
    onDeviceEvent (Option.some ⟨EventDevice.device sf,
      EventMessage.nilMessage, t⟩) = Except.ok Effects.silent ∧
    onDeviceEvent (Option.some ⟨EventDevice.device sf,
      EventMessage.notWrp, t⟩) = Except.ok Effects.silent ∧
    Effects.silent.errorLogs = 0 ∧ Effects.silent.sends = 0 ∧
    Effects.silent.metricCalls = 0 :=
  ⟨rfl, rfl, rfl, rfl, rfl⟩

/-- C9: for an otherwise ack-eligible event, the opaque sub-fields of the
message (source, destination, URL bytes, payload, headers, session,
transaction id) never change the dispatcher's outcome: any two messages
agreeing on message type, partner identifiers and QOS value are handled
identically, and the send with its metric pair still happens. -/
theorem opaque_fields_irrelevant (sf : Bool) (t : EventType) (m m2 : Message)
    (ht : m2.type = m.type) (hpi : m2.partnerIDs = m.partnerIDs)
    (hq : m2.qualityOfService = m.qualityOfService)
    (hp : m.partnerIDs.length = 1) (hel : ackEligible t m = true) :
    onDeviceEvent (Option.some ⟨EventDevice.device sf, EventMessage.wrp m2, t⟩) =
      onDeviceEvent (Option.some ⟨EventDevice.device sf, EventMessage.wrp m, t⟩) ∧
    ∃ eff, onDeviceEvent (Option.some ⟨EventDevice.device sf,
        EventMessage.wrp m2, t⟩) = Except.ok eff ∧
      eff.sends = 1 ∧ eff.metricCalls = 2 := by
  have hc : dispatchMessage t sf m2 = dispatchMessage t sf m :=
    dispatchMessage_congr t sf m m2 ht hpi hq
  obtain ⟨p, hlist⟩ := List.length_eq_one.mp hp
  refine ⟨by rw [onDeviceEvent_wrp, onDeviceEvent_wrp, hc], ?_⟩
  rw [onDeviceEvent_wrp, hc, dispatchMessage_singleton t sf m p hlist,
    if_pos hel]
  cases sf
  · exact ⟨_, rfl, rfl, rfl⟩
  · exact ⟨_, rfl, rfl, rfl⟩

/-- Witness for C9 at the "Ack QOS level Critical success with invalid
message specs" test event: empty source, syntactically invalid MAC
destination, non-UTF8 URL bytes. -/
theorem opaque_fields_irrelevant_witness :
    malformedMsg.type =
      ({ sampleMsg with qualityOfService := QOSCriticalValue } : Message).type ∧
    malformedMsg.partnerIDs =
      ({ sampleMsg with qualityOfService := QOSCriticalValue } : Message).partnerIDs ∧
    malformedMsg.qualityOfService =
      ({ sampleMsg with qualityOfService := QOSCriticalValue } : Message).qualityOfService ∧
    ({ sampleMsg with qualityOfService := QOSCriticalValue } : Message).partnerIDs.length = 1 ∧
    ackEligible EventType.messageReceived
      { sampleMsg with qualityOfService := QOSCriticalValue } = true ∧
    (onDeviceEvent (Option.some ⟨EventDevice.device false,
        EventMessage.wrp malformedMsg, EventType.messageReceived⟩) =
      onDeviceEvent (Option.some ⟨EventDevice.device false,
        EventMessage.wrp { sampleMsg with qualityOfService := QOSCriticalValue },
        EventType.messageReceived⟩) ∧
    ∃ eff, onDeviceEvent (Option.some ⟨EventDevice.device false,
        EventMessage.wrp malformedMsg, EventType.messageReceived⟩) =
        Except.ok eff ∧
      eff.sends = 1 ∧ eff.metricCalls = 2) :=
  ⟨by decide, by decide, by decide, by decide, by decide,
    opaque_fields_irrelevant false EventType.messageReceived
      { sampleMsg with qualityOfService := QOSCriticalValue } malformedMsg
      (by decide) (by decide) (by decide) (by decide) (by decide)⟩

/-- C10: constructing the dispatcher over any measures instance and any
outbounder configuration always succeeds — a present dispatcher holding
the injected collaborators, no error — and the constructor emits
initialization log output before any event is handled. -/
theorem new_ack_dispatcher_total (om : OutboundMeasures) (o : Outbounder) :
    (NewAckDispatcher om o).dispatcher = Option.some ⟨om, o⟩ ∧
    (NewAckDispatcher om o).err = Option.none ∧
    0 < (NewAckDispatcher om o).initLogLines :=
  ⟨rfl, rfl, Nat.one_pos⟩

end Talaria
